import Mathlib

/-!
Shallow embedding of `src/pyrogram/client/methods/messages/download_media.py`
(the `DownloadMedia.download_media` method) together with the pieces of its
environment that the method observably depends on.

Conventions of the embedding:
* Python bytes are `List Nat` (each element a byte value `< 256`).
* Python `None` is `Option.none`; a fallible Python expression is `Option`/`Except`.
* Python exceptions escaping the call are the `PyError` inductive.
* The asynchronous boundary (the `asyncio.Event` named `done`, the one-element
  mutable list `path`, and the external worker consuming `download_queue`) is
  modelled by a `worker` function giving, per enqueued request, the contents of
  the result slot at the moment the worker raises the completion signal.  A
  blocking call (`block = true`) awaits the signal and reads the slot, so it
  returns `worker req`; a non-blocking call returns right after the
  non-suspending `put_nowait`, at which point the slot still holds its initial
  `None` (there is no suspension point between the enqueue and the `return`).
* The list component of `downloadMedia`'s result records the requests enqueued
  to `download_queue` during the call (empty on every error path).
-/

/-- `DEFAULT_DOWNLOAD_DIR = "downloads/"` from the source. -/
def DEFAULT_DOWNLOAD_DIR : String := "downloads/"

/-- The error message string bound at the top of `download_media`. -/
def errorMessage : String := "This message doesn't contain any downloadable media"

/-- Python exceptions that can escape `download_media`:
`ValueError msg` (the no-media and unknown-media-type raises), the
`FileIdInvalid` error raised by the broad `except` clause, `IndexError`
(from `decoded[0]` on empty bytes), and `UnicodeDecodeError`
(from `thumb_size.decode()` on a non-ASCII byte). -/
inductive PyError where
  | valueError (msg : String)
  | fileIdInvalid
  | indexError
  | unicodeDecodeError
deriving DecidableEq, Repr

/-- Modelled from the spec: the textual stage of `utils.decode` — `utils` is not
part of the visible source — maps a base64 character of the URL-safe alphabet
to its 6-bit value. -/
def b64Index (c : Char) : Option Nat :=
  if 'A' ≤ c ∧ c ≤ 'Z' then some (c.toNat - 'A'.toNat)
  else if 'a' ≤ c ∧ c ≤ 'z' then some (c.toNat - 'a'.toNat + 26)
  else if '0' ≤ c ∧ c ≤ '9' then some (c.toNat - '0'.toNat + 52)
  else if c = '-' then some 62
  else if c = '_' then some 63
  else none

/-- Modelled from the spec: regroup 6-bit values into bytes, four values to
three bytes, with a padding-tolerant tail (two values give one byte, three
values give two bytes, a single leftover value is invalid). -/
def b64Regroup : List Nat → Option (List Nat)
  | [] => some []
  | [_] => none
  | [a, b] => some [a * 4 + b / 16]
  | [a, b, c] => some [a * 4 + b / 16, b % 16 * 16 + c / 4]
  | a :: b :: c :: d :: rest =>
    match b64Regroup rest with
    | none => none
    | some tl => some ([a * 4 + b / 16, b % 16 * 16 + c / 4, c % 4 * 64 + d] ++ tl)

/-- Modelled from the spec: `utils.decode`'s textual stage — URL-safe base64,
"tolerant of missing padding" — reversed into raw bytes; `none` is the
stage-1 failure (`binascii.Error`). -/
def decode (s : String) : Option (List Nat) :=
  let cs := (s.toList.reverse.dropWhile (fun ch => ch = '=')).reverse
  match cs.mapM b64Index with
  | none => none
  | some vs => b64Regroup vs

/-- Little-endian interpretation of a byte list as an unsigned number. -/
def leNat (bs : List Nat) : Nat := bs.foldr (fun b acc => b + 256 * acc) 0

/-- `struct.unpack`'s signed little-endian field of width `w` bytes starting at
offset `off` of `bs` (covers the `i`, `q` and `b` format codes). -/
def sIntAt (bs : List Nat) (off w : Nat) : Int :=
  let u := leNat ((bs.drop off).take w)
  if u < 2 ^ (8 * w - 1) then (u : Int) else (u : Int) - 2 ^ (8 * w)

/-- The `FileData` container (from `pyrogram.client.ext`, not in the visible
source): a plain attribute record whose fields default to `None`; modelled
with every field optional. -/
structure FileData where
  file_name : Option String := none
  file_size : Option Nat := none
  mime_type : Option String := none
  date : Option Nat := none
  media_type : Option Nat := none
  dc_id : Option Int := none
  peer_id : Option Int := none
  volume_id : Option Int := none
  local_id : Option Int := none
  is_big : Option Bool := none
  document_id : Option Int := none
  access_hash : Option Int := none
  thumb_size : Option String := none
deriving DecidableEq, Repr

/-- The first `FileData` built in `download_media`, carrying only the caller
metadata (`file_name`, `file_size`, `mime_type`, `date`).  Since
`get_existing_attributes` drops the `None` fields and `FileData` defaults the
absent ones back to `None`, rebuilding from these four fields is the identity
on them. -/
def mkFileData (fn : Option String) (fs : Option Nat) (mt : Option String)
    (dt : Option Nat) : FileData :=
  { file_name := fn, file_size := fs, mime_type := mt, date := dt }

/-- The recognized media-type tags (the union of the three dispatch branches). -/
def tagSet : List Nat := [0, 1, 2, 3, 4, 5, 8, 9, 10, 13, 14]

/-- The byte length `struct.unpack` requires for a recognized tag:
`"<iiqqib"` is 29 bytes, `"<iiqqc"` is 25 bytes, `"<iiqq"` is 24 bytes. -/
def expectedLength (t : Nat) : Nat :=
  if t = 1 then 29 else if t = 0 ∨ t = 2 ∨ t = 14 then 25 else 24

/-- The `try` body of `download_media` after `utils.decode` succeeded with the
bytes `bs`: read `decoded[0]`, dispatch on it into one of the three
`struct.unpack` shapes, and rebuild `FileData` from the existing (caller)
attributes plus the variant fields.  A wrong payload length is a
`struct.error`, turned into `FileIdInvalid` by the `except` clause; an
unrecognized first byte raises `ValueError("Unknown media type: ...")`, which
is *not* in the `except` tuple and escapes as a `ValueError`. -/
def parseFileData (base : FileData) (bs : List Nat) (fid : String) :
    Except PyError FileData :=
  match bs.head? with
  | none => .error .indexError
  | some b0 =>
    if b0 = 1 then
      if bs.length = 29 then
        .ok { base with
          media_type := some 1
          dc_id := some (sIntAt bs 4 4)
          peer_id := some (sIntAt bs 8 8)
          volume_id := some (sIntAt bs 16 8)
          local_id := some (sIntAt bs 24 4)
          is_big := some (sIntAt bs 28 1 ≠ 0) }
      else .error .fileIdInvalid
    else if b0 = 0 ∨ b0 = 2 ∨ b0 = 14 then
      if bs.length = 25 then
        if leNat ((bs.drop 24).take 1) < 128 then
          .ok { base with
            media_type := some b0
            dc_id := some (sIntAt bs 4 4)
            document_id := some (sIntAt bs 8 8)
            access_hash := some (sIntAt bs 16 8)
            thumb_size := some (String.mk [Char.ofNat (leNat ((bs.drop 24).take 1))]) }
        else .error .unicodeDecodeError
      else .error .fileIdInvalid
    else if b0 = 3 ∨ b0 = 4 ∨ b0 = 5 ∨ b0 = 8 ∨ b0 = 9 ∨ b0 = 10 ∨ b0 = 13 then
      if bs.length = 24 then
        .ok { base with
          media_type := some b0
          dc_id := some (sIntAt bs 4 4)
          document_id := some (sIntAt bs 8 8)
          access_hash := some (sIntAt bs 16 8) }
      else .error .fileIdInvalid
    else .error (.valueError ("Unknown media type: " ++ fid))

/-- A media object as `download_media` observes it: its `file_id` plus the four
metadata attributes read with `getattr`.  An attribute that is missing on the
concrete type behaves in this method exactly like one holding `None`
(both are falsy and both are dropped or skipped downstream), so a single
`Option` covers the two cases. -/
structure Media where
  file_id : String
  file_name : Option String := none
  file_size : Option Nat := none
  mime_type : Option String := none
  date : Option Nat := none
deriving DecidableEq, Repr

/-- A `pyrogram.Message` as observed here: the eight media attributes probed by
the `for kind in available_media` loop. -/
structure Msg where
  audio : Option Media := none
  document : Option Media := none
  photo : Option Media := none
  sticker : Option Media := none
  animation : Option Media := none
  video : Option Media := none
  voice : Option Media := none
  video_note : Option Media := none
deriving DecidableEq, Repr

/-- The tuple `available_media`, in source order, read off a message. -/
def availableMedia (m : Msg) : List (Option Media) :=
  [m.audio, m.document, m.photo, m.sticker, m.animation, m.video, m.voice,
   m.video_note]

/-- The `for ... break / else` loop: the first non-`None` entry, if any. -/
def firstSome : List (Option Media) → Option Media
  | [] => none
  | some a :: _ => some a
  | none :: rest => firstSome rest

/-- The media-selection prefix of `download_media`: a `Message` yields its
first present media kind (or `ValueError` if none), a bare string passes
through. -/
def resolveMedia : Msg ⊕ String → Except PyError (Media ⊕ String)
  | .inl msg =>
    match firstSome (availableMedia msg) with
    | some m => .ok (.inl m)
    | none => .error (.valueError errorMessage)
  | .inr s => .ok (.inr s)

/-- The `isinstance(media, str)` split: the identifier string plus the four
caller metadata fields (all `None` for a bare string). -/
def extractMeta : Media ⊕ String →
    String × Option String × Option Nat × Option String × Option Nat
  | .inl m => (m.file_id, m.file_name, m.file_size, m.mime_type, m.date)
  | .inr s => (s, none, none, none, none)

/-- Everything of `download_media` up to and including the `try` block:
produces the fully populated `FileData` or the escaping exception. -/
def prepare (x : Msg ⊕ String) : Except PyError FileData :=
  match resolveMedia x with
  | .error e => .error e
  | .ok me =>
    let meta := extractMeta me
    match decode meta.1 with
    | none => .error .fileIdInvalid
    | some bs => parseFileData (mkFileData meta.2.1 meta.2.2.1 meta.2.2.2.1 meta.2.2.2.2) bs meta.1

/-- Python truthiness-based `or` on strings (`"" or b = b`). -/
def pyOr (a b : String) : String := if a = "" then b else a

/-- Python `or` where the left side is `None` or a string. -/
def pyOrOpt (a : Option String) (b : String) : String :=
  match a with
  | some s => pyOr s b
  | none => b

/-- Python `or` where the left side is `None` or an int (`0` is falsy). -/
def pyOrNat (a : Option Nat) (b : Nat) : Nat :=
  match a with
  | some n => if n = 0 then b else n
  | none => b

/-- `os.path.split` (POSIX): split at the last slash; the head keeps its
trailing slashes only when it consists solely of slashes. -/
def osPathSplit (p : String) : String × String :=
  let cs := p.toList
  let tl := (cs.reverse.takeWhile (fun ch => ch ≠ '/')).reverse
  let hd := cs.take (cs.length - tl.length)
  let hd2 := if hd.all (fun ch => ch = '/') then hd
    else (hd.reverse.dropWhile (fun ch => ch = '/')).reverse
  (String.mk hd2, String.mk tl)

/-- `os.path.isabs` (POSIX): the path begins with a slash. -/
def isAbs (p : String) : Bool := p.toList.head? = some '/'

/-- The path components of `s`, empty segments dropped (pathlib keeps paths in
normalized component form). -/
def normParts (s : String) : List String :=
  ((s.toList.splitOn '/').map (fun cs => String.mk cs)).filter (fun t => t ≠ "")

/-- `pathlib`'s `/` operator: an absolute right operand replaces the left,
otherwise the normalized right components are appended. -/
def pathJoin (a b : String) : String :=
  if isAbs b then "/" ++ String.intercalate "/" (normParts b)
  else
    match normParts b with
    | [] => a
    | ps => a ++ "/" ++ String.intercalate "/" ps

/-- Two-digit zero padding used by `strftime`'s numeric fields. -/
def pad2 (n : Nat) : String := if n < 10 then "0" ++ toString n else toString n

/-- `datetime.fromtimestamp(t).strftime("%Y-%m-%d_%H-%M-%S")`, modelled in UTC:
civil date from days since the epoch (standard era/year-of-era arithmetic)
and the time of day to second precision. -/
def formatTimestamp (t : Nat) : String :=
  let days := t / 86400
  let secs := t % 86400
  let z := days + 719468
  let era := z / 146097
  let doe := z % 146097
  let yoe := (doe - doe / 1460 + doe / 36524 - doe / 146096) / 365
  let doy := doe - (365 * yoe + yoe / 4 - yoe / 100)
  let mp := (5 * doy + 2) / 153
  let d := doy - (153 * mp + 2) / 5 + 1
  let m := if mp < 10 then mp + 3 else mp - 9
  let y := yoe + era * 400 + (if m ≤ 2 then 1 else 0)
  toString y ++ "-" ++ pad2 m ++ "-" ++ pad2 d ++ "_" ++
    pad2 (secs / 3600) ++ "-" ++ pad2 (secs % 3600 / 60) ++ "-" ++ pad2 (secs % 60)

/-- Modelled from the spec: the tag-to-category-label table `MEDIA_TYPE_ID`
lives on `BaseClient`, which is not part of the visible source.  The spec fixes
one label per tag group, names "photo" for the photo-like tags {0,1,2,14}, and
its audio example pairs the label "audio" with the ".ogg" default container,
which the visible source ties to tag 3; the remaining groups get one label
each. -/
def MEDIA_TYPE_ID (t : Nat) : String :=
  if t = 0 ∨ t = 1 ∨ t = 2 ∨ t = 14 then "photo"
  else if t = 3 then "audio"
  else if t = 4 ∨ t = 10 ∨ t = 13 then "video"
  else if t = 5 then "document"
  else if t = 8 then "sticker"
  else if t = 9 then "music"
  else "unknown"

/-- The ambient pieces of `BaseClient` state and of the environment the method
reads: the base directory `PARENT_DIR`, the value `rnd_id()` returns, the
current time `time.time()`, and the external `guess_extension` collaborator. -/
structure Client where
  parentDir : String
  rndId : Nat
  now : Nat
  guessExtension : Option String → Option String

/-- The extension chosen inside the `if not file_name` block: `".jpg"`
unconditionally for tags {0,1,2,14}, else the MIME guess with a per-group
default, else `".unknown"`. -/
def synthExtension (c : Client) (mt : Nat) (mime : Option String) : String :=
  let g := c.guessExtension mime
  if mt = 0 ∨ mt = 1 ∨ mt = 2 ∨ mt = 14 then ".jpg"
  else if mt = 3 then pyOrOpt g ".ogg"
  else if mt = 4 ∨ mt = 10 ∨ mt = 13 then pyOrOpt g ".mp4"
  else if mt = 5 then pyOrOpt g ".zip"
  else if mt = 8 then pyOrOpt g ".webp"
  else if mt = 9 then pyOrOpt g ".mp3"
  else ".unknown"

/-- The synthesized file name
`"{media_type_str}_{strftime(date or now)}_{rnd_id}{extension}"`. -/
def synthFileName (c : Client) (data : FileData) : String :=
  let mt := data.media_type.getD 0
  MEDIA_TYPE_ID mt ++ "_" ++ formatTimestamp (pyOrNat data.date c.now) ++ "_" ++
    toString c.rndId ++ synthExtension c mt data.mime_type

/-- The tuple `put_nowait` enqueues, minus the completion plumbing (`done` and
the `path` slot live in the worker model) ; `π` carries the opaque
`(progress, progress_args)` payload the worker alone consumes. -/
structure TransferRequest (π : Type) where
  data : FileData
  directory : String
  fileName : String
  progress : π
deriving DecidableEq, Repr

/-- Path resolution and filename synthesis: the request built from the parsed
`data` and the caller's `file_name` argument (`path` here). -/
def buildRequest {π : Type} (c : Client) (data : FileData) (path : String)
    (prog : π) : TransferRequest π :=
  let dir0 := (osPathSplit path).1
  let fn1 := pyOr (osPathSplit path).2 (pyOrOpt data.file_name "")
  let dir1 := if isAbs fn1 then dir0
    else pathJoin c.parentDir (pyOr dir0 DEFAULT_DOWNLOAD_DIR)
  let fn2 := if fn1 = "" then synthFileName c data else fn1
  { data := data, directory := dir1, fileName := fn2, progress := prog }

/-- The whole of `download_media`.  `worker` gives, per request, the contents
of the result slot when the external worker raises the completion signal; the
second component lists the requests enqueued during the call. -/
def downloadMedia {π : Type} (c : Client)
    (worker : TransferRequest π → Option String) (x : Msg ⊕ String)
    (path : String) (block : Bool) (prog : π) :
    Except PyError (Option String) × List (TransferRequest π) :=
  match prepare x with
  | .error e => (.error e, [])
  | .ok data =>
    let req := buildRequest c data path prog
    (.ok (if block then worker req else none), [req])

/-! ### Shared helper lemmas -/

/-- A successful parse carries the caller metadata of its base record through
unchanged. -/
theorem parseFileData_preserves_meta {base : FileData} {bs : List Nat}
    {fid : String} {d : FileData}
    (h : parseFileData base bs fid = .ok d) :
    d.file_name = base.file_name ∧ d.file_size = base.file_size ∧
      d.mime_type = base.mime_type ∧ d.date = base.date := by
  unfold parseFileData at h
  cases hh : bs.head? <;> rw [hh] at h
  · exact absurd h (by simp)
  · repeat' split at h
    all_goals first
      | exact Except.noConfusion h
      | (injection h with h2; subst h2; exact ⟨rfl, rfl, rfl, rfl⟩)

/-! ### Concrete instances for witnesses and counterexamples -/

def sampleClient : Client :=
  { parentDir := "/work", rndId := 12345, now := 1000000000,
    guessExtension := fun _ => none }

def guessingClient : Client :=
  { parentDir := "/work", rndId := 12345, now := 1000000000,
    guessExtension := fun m => if m = some "image/png" then some ".png" else none }

def noWorker : TransferRequest Unit → Option String := fun _ => none

def pathWorker : TransferRequest Unit → Option String :=
  fun _ => some "/work/downloads/file.bin"

/-- Decodes to the four bytes `[6, 0, 0, 0]`: discriminant 6, unrecognized. -/
def fidTag6 : String := "BgAAAA"

/-- Decodes to a 24-byte all-zero record whose first byte is 3. -/
def fidTag3 : String := "AwAAAAAAAAAAAAAAAAAAAAAAAAAAAAAA"

/-- Decodes to the four bytes `[1, 0, 0, 0]`: recognized tag 1 but 4 bytes
instead of the 29 the `"<iiqqib"` layout needs. -/
def fidTag1Short : String := "AQAAAA"

/-- The descriptor `fidTag3` parses to. -/
def data3 : FileData :=
  { media_type := some 3, dc_id := some 0, document_id := some 0,
    access_hash := some 0 }

/-- The request enqueued by `downloadMedia sampleClient _ (Sum.inr fidTag3)
"downloads/" _ ()`. -/
def req3 : TransferRequest Unit :=
  { data := data3, directory := "/work/downloads",
    fileName := "audio_2001-09-09_01-46-40_12345.ogg", progress := () }

/-! ### C6 -/

/-- C6: a message carrying none of the eight known media kinds makes
`download_media` raise the no-downloadable-media `ValueError` before anything
is enqueued. -/
theorem C6_no_downloadable_media {π : Type} (c : Client)
    (w : TransferRequest π → Option String) (path : String) (blk : Bool)
    (prog : π) (msg : Msg)
    (ha : msg.audio = none) (hd : msg.document = none) (hp : msg.photo = none)
    (hs : msg.sticker = none) (han : msg.animation = none)
    (hv : msg.video = none) (hvo : msg.voice = none)
    (hvn : msg.video_note = none) :
    downloadMedia c w (Sum.inl msg) path blk prog =
      (.error (.valueError errorMessage), []) := by
  simp only [downloadMedia, prepare, resolveMedia, availableMedia, ha, hd, hp,
    hs, han, hv, hvo, hvn]
  rfl

theorem C6_no_downloadable_media_witness :
    downloadMedia sampleClient noWorker (Sum.inl ({} : Msg)) "downloads/" true
        () =
      (.error (.valueError errorMessage), []) :=
  C6_no_downloadable_media sampleClient noWorker "downloads/" true () {}
    rfl rfl rfl rfl rfl rfl rfl rfl

/-! ### C8 -/

/-- C8: a non-blocking call that returns (rather than raising) always returns
the absent value — the result slot's initial contents — and its whole outcome
is independent of the external worker's behavior. -/
theorem C8_nonblocking_returns_absent {π : Type} (c : Client)
    (w w' : TransferRequest π → Option String) (x : Msg ⊕ String)
    (path : String) (prog : π) (v : Option String)
    (h : (downloadMedia c w x path false prog).1 = .ok v) :
    v = none ∧
      downloadMedia c w x path false prog =
        downloadMedia c w' x path false prog := by
  unfold downloadMedia at h ⊢
  cases hp : prepare x <;> simp_all

theorem C8_nonblocking_returns_absent_witness :
    (none : Option String) = none ∧
      downloadMedia sampleClient pathWorker (Sum.inr fidTag3) "downloads/"
          false () =
        downloadMedia sampleClient noWorker (Sum.inr fidTag3) "downloads/"
          false () :=
  C8_nonblocking_returns_absent sampleClient pathWorker noWorker
    (Sum.inr fidTag3) "downloads/" () none rfl

/-! ### C7 -/

/-- C7: once a blocking call has enqueued a request, it returns exactly the
contents the external worker leaves in the result slot when it raises the
completion signal — the path the worker wrote, or the absent value — wrapped
in a non-error outcome. -/
theorem C7_blocking_returns_slot {π : Type} (c : Client)
    (w : TransferRequest π → Option String) (x : Msg ⊕ String) (path : String)
    (prog : π) (r : TransferRequest π)
    (h : (downloadMedia c w x path true prog).2 = [r]) :
    (downloadMedia c w x path true prog).1 = .ok (w r) := by
  unfold downloadMedia at h ⊢
  cases hp : prepare x <;> simp_all

theorem C7_blocking_returns_slot_witness :
    (downloadMedia sampleClient pathWorker (Sum.inr fidTag3) "downloads/" true
        ()).1 = Except.ok (some "/work/downloads/file.bin") ∧
      (downloadMedia sampleClient noWorker (Sum.inr fidTag3) "downloads/" true
        ()).1 = Except.ok (none : Option String) :=
  ⟨C7_blocking_returns_slot sampleClient pathWorker (Sum.inr fidTag3)
      "downloads/" () req3 (by decide),
   C7_blocking_returns_slot sampleClient noWorker (Sum.inr fidTag3)
      "downloads/" () req3 (by decide)⟩

/-! ### C4 -/

/-- C4: a string the text stage cannot decode, and a string whose decoded
length mismatches the record width its (recognized) discriminant selects, both
make `download_media` fail with the one `FileIdInvalid` kind, with nothing
enqueued — the two stages are indistinguishable to the caller. -/
theorem C4_invalid_identifier_collapse {π : Type} (c : Client)
    (w : TransferRequest π → Option String) (path : String) (blk : Bool)
    (prog : π) (s : String) :
    (decode s = none →
      downloadMedia c w (Sum.inr s) path blk prog =
        (.error .fileIdInvalid, [])) ∧
    (∀ bs t, decode s = some bs → bs.head? = some t → t ∈ tagSet →
      bs.length ≠ expectedLength t →
      downloadMedia c w (Sum.inr s) path blk prog =
        (.error .fileIdInvalid, [])) := by
  constructor
  · intro h
    simp only [downloadMedia, prepare, resolveMedia, extractMeta, h]
  · intro bs t hdec hhead htag hlen
    simp only [downloadMedia, prepare, resolveMedia, extractMeta, hdec,
      parseFileData, hhead]
    simp only [tagSet, List.mem_cons, List.not_mem_nil, or_false] at htag
    simp only [expectedLength] at hlen
    rcases htag with rfl | rfl | rfl | rfl | rfl | rfl | rfl | rfl | rfl | rfl | rfl <;>
      simp_all

/-- C4 witness: `"!"` fails the text stage; `"AQAAAA"` decodes to the four
bytes `[1,0,0,0]`, a recognized tag-1 record that is 25 bytes short; both
calls fail with `FileIdInvalid` and enqueue nothing. -/
theorem C4_invalid_identifier_collapse_witness :
    downloadMedia sampleClient noWorker (Sum.inr "!") "downloads/" true () =
        (.error .fileIdInvalid, []) ∧
      downloadMedia sampleClient noWorker (Sum.inr fidTag1Short) "downloads/"
          true () =
        (.error .fileIdInvalid, []) :=
  ⟨(C4_invalid_identifier_collapse sampleClient noWorker "downloads/" true ()
      "!").1 (by decide),
   (C4_invalid_identifier_collapse sampleClient noWorker "downloads/" true ()
      fidTag1Short).2 [1, 0, 0, 0] 1 (by decide) (by decide) (by decide)
      (by decide)⟩

/-! ### C1 -/

/-- C1 counterexample: `fidTag6` decodes successfully to a four-byte record
whose discriminant 6 is outside the recognized tag set, yet the call fails
with a `ValueError` ("Unknown media type"), not with the `FileIdInvalid` kind
the claim requires. -/
theorem C1_unknown_tag_counterexample :
    decode fidTag6 = some [6, 0, 0, 0] ∧
      downloadMedia sampleClient noWorker (Sum.inr fidTag6) "downloads/" true
          () =
        (.error (.valueError ("Unknown media type: " ++ fidTag6)), []) ∧
      PyError.valueError ("Unknown media type: " ++ fidTag6) ≠
        PyError.fileIdInvalid :=
  ⟨by decide, rfl, by decide⟩

/-- C1 amended: an identifier whose leading discriminant decodes successfully
but whose first byte is outside the recognized tag set makes `download_media`
fail with the uncaught unknown-media-type `ValueError` (a different kind from
`InvalidIdentifier`), and no transfer request is enqueued. -/
theorem C1_unknown_tag_value_error {π : Type} (c : Client)
    (w : TransferRequest π → Option String) (path : String) (blk : Bool)
    (prog : π) (s : String) (bs : List Nat) (t : Nat)
    (hdec : decode s = some bs) (hhead : bs.head? = some t)
    (_hlen : 4 ≤ bs.length) (ht : t ∉ tagSet) :
    downloadMedia c w (Sum.inr s) path blk prog =
      (.error (.valueError ("Unknown media type: " ++ s)), []) := by
  simp only [downloadMedia, prepare, resolveMedia, extractMeta, hdec,
    parseFileData, hhead]
  simp only [tagSet, List.mem_cons, List.not_mem_nil, or_false, not_or] at ht
  obtain ⟨h0, h1, h2, h3, h4, h5, h8, h9, h10, h13, h14⟩ := ht
  simp [h0, h1, h2, h3, h4, h5, h8, h9, h10, h13, h14]

theorem C1_unknown_tag_value_error_witness :
    downloadMedia sampleClient noWorker (Sum.inr fidTag6) "downloads/" true
        () =
      (.error (.valueError ("Unknown media type: " ++ fidTag6)), []) :=
  C1_unknown_tag_value_error sampleClient noWorker "downloads/" true ()
    fidTag6 [6, 0, 0, 0] 6 (by decide) (by decide) (by decide) (by decide)

/-! ### C5 -/

/-- C5: a successful parse populates exactly one variant's fields.  Tag 1
yields precisely `dc_id`, `peer_id`, `volume_id`, `local_id`, `is_big` (a
boolean) with the document-variant fields absent; tags {0,2,14} yield the
thumbnail document variant; tags {3,4,5,8,9,10,13} the plain document
variant — in each case the other variants' fields stay absent. -/
theorem C5_variant_exclusivity (fn : Option String) (fs : Option Nat)
    (mt : Option String) (dt : Option Nat) (bs : List Nat) (fid : String)
    (d : FileData)
    (h : parseFileData (mkFileData fn fs mt dt) bs fid = .ok d) :
    (d.media_type = some 1 →
      d.dc_id.isSome ∧ d.peer_id.isSome ∧ d.volume_id.isSome ∧
        d.local_id.isSome ∧ d.is_big.isSome ∧
        d.document_id = none ∧ d.access_hash = none ∧ d.thumb_size = none) ∧
    (∀ t, d.media_type = some t → (t = 0 ∨ t = 2 ∨ t = 14) →
      d.dc_id.isSome ∧ d.document_id.isSome ∧ d.access_hash.isSome ∧
        d.thumb_size.isSome ∧ d.peer_id = none ∧ d.volume_id = none ∧
        d.local_id = none ∧ d.is_big = none) ∧
    (∀ t, d.media_type = some t →
      (t = 3 ∨ t = 4 ∨ t = 5 ∨ t = 8 ∨ t = 9 ∨ t = 10 ∨ t = 13) →
      d.dc_id.isSome ∧ d.document_id.isSome ∧ d.access_hash.isSome ∧
        d.thumb_size = none ∧ d.peer_id = none ∧ d.volume_id = none ∧
        d.local_id = none ∧ d.is_big = none) := by
  unfold parseFileData mkFileData at h
  cases hh : bs.head? <;> rw [hh] at h
  · exact absurd h (by simp)
  · repeat' split at h
    all_goals first
      | exact Except.noConfusion h
      | (injection h with h2; subst h2
         refine ⟨fun hmt => ?_, fun t hmt hdisj => ?_, fun t hmt hdisj => ?_⟩ <;>
           simp_all <;> omega)

/-- The claim's worked example: tag 1, `dc_id = 2`, `peer_id = 123`,
`volume_id = 456`, `local_id = 7`, `is_big = true`, as 29 little-endian
bytes. -/
def chatPhotoBytes : List Nat :=
  [1, 0, 0, 0, 2, 0, 0, 0, 123, 0, 0, 0, 0, 0, 0, 0,
   200, 1, 0, 0, 0, 0, 0, 0, 7, 0, 0, 0, 1]

/-- The parse result of `chatPhotoBytes`. -/
def chatPhotoData : FileData :=
  { media_type := some 1, dc_id := some 2, peer_id := some 123,
    volume_id := some 456, local_id := some 7, is_big := some true }

theorem C5_variant_exclusivity_witness :
    parseFileData (mkFileData none none none none) chatPhotoBytes "f" =
        .ok chatPhotoData ∧
      (chatPhotoData.dc_id.isSome ∧ chatPhotoData.peer_id.isSome ∧
        chatPhotoData.volume_id.isSome ∧ chatPhotoData.local_id.isSome ∧
        chatPhotoData.is_big.isSome ∧ chatPhotoData.document_id = none ∧
        chatPhotoData.access_hash = none ∧ chatPhotoData.thumb_size = none) :=
  ⟨rfl,
   (C5_variant_exclusivity none none none none chatPhotoBytes "f"
      chatPhotoData rfl).1 rfl⟩

/-! ### C9 -/

/-- C9: on every enqueued request, the file name is the caller path's tail
component, falling back to the descriptor's known file name and then to the
empty string that triggers synthesis; and whenever that resulting name is not
absolute, the directory component is resolved against the client's base
directory, with the fixed `"downloads/"` root standing in for an empty caller
directory. -/
theorem C9_path_resolution {π : Type} (c : Client)
    (w : TransferRequest π → Option String) (x : Msg ⊕ String) (path : String)
    (blk : Bool) (prog : π) (r : TransferRequest π)
    (h : (downloadMedia c w x path blk prog).2 = [r]) :
    r.directory =
        (if isAbs (pyOr (osPathSplit path).2 (pyOrOpt r.data.file_name ""))
          then (osPathSplit path).1
          else pathJoin c.parentDir
            (pyOr (osPathSplit path).1 DEFAULT_DOWNLOAD_DIR)) ∧
      (pyOr (osPathSplit path).2 (pyOrOpt r.data.file_name "") = "" →
        r.fileName = synthFileName c r.data) ∧
      (pyOr (osPathSplit path).2 (pyOrOpt r.data.file_name "") ≠ "" →
        r.fileName = pyOr (osPathSplit path).2 (pyOrOpt r.data.file_name "")) := by
  unfold downloadMedia at h
  cases hp : prepare x <;> simp_all
  subst h
  unfold buildRequest
  refine ⟨?_, ?_, ?_⟩
  · split <;> simp_all
  · intro hfn; simp_all
  · intro hfn; simp_all

theorem C9_path_resolution_witness :
    req3.directory =
        (if isAbs (pyOr (osPathSplit "downloads/").2
            (pyOrOpt req3.data.file_name ""))
          then (osPathSplit "downloads/").1
          else pathJoin sampleClient.parentDir
            (pyOr (osPathSplit "downloads/").1 DEFAULT_DOWNLOAD_DIR)) ∧
      (pyOr (osPathSplit "downloads/").2 (pyOrOpt req3.data.file_name "") =
          "" →
        req3.fileName = synthFileName sampleClient req3.data) ∧
      (pyOr (osPathSplit "downloads/").2 (pyOrOpt req3.data.file_name "") ≠
          "" →
        req3.fileName =
          pyOr (osPathSplit "downloads/").2 (pyOrOpt req3.data.file_name "")) :=
  C9_path_resolution sampleClient pathWorker (Sum.inr fidTag3) "downloads/"
    true () req3 (by decide)

/-! ### C10 -/

/-- C10: the media kind used is the first non-absent attribute in the fixed
order audio, document, photo, sticker, animation, video, voice, video_note;
and a bare identifier string carries no caller metadata, so the enqueued
descriptor's four metadata fields are absent and the file name is synthesized
whenever the caller path has an empty tail component. -/
theorem C10_media_priority_bare_string :
    (∀ msg : Msg,
      firstSome (availableMedia msg) =
        (msg.audio <|> msg.document <|> msg.photo <|> msg.sticker <|>
          msg.animation <|> msg.video <|> msg.voice <|> msg.video_note)) ∧
    (∀ {π : Type} (c : Client) (w : TransferRequest π → Option String)
      (s path : String) (blk : Bool) (prog : π) (r : TransferRequest π),
      (downloadMedia c w (Sum.inr s) path blk prog).2 = [r] →
      r.data.file_name = none ∧ r.data.file_size = none ∧
        r.data.mime_type = none ∧ r.data.date = none ∧
        ((osPathSplit path).2 = "" → r.fileName = synthFileName c r.data)) := by
  constructor
  · intro msg
    obtain ⟨au, doc, ph, st, an, vi, vo, vn⟩ := msg
    cases au <;> cases doc <;> cases ph <;> cases st <;> cases an <;>
      cases vi <;> cases vo <;> cases vn <;> rfl
  · intro π c w s path blk prog r h
    unfold downloadMedia at h
    cases hp : prepare (Sum.inr s : Msg ⊕ String) with
    | error e => simp_all
    | ok data =>
      rw [hp] at h
      simp only [List.cons.injEq, and_true] at h
      simp only [prepare, resolveMedia, extractMeta] at hp
      rcases hdec : decode s with _ | bs <;> rw [hdec] at hp
      · simp at hp
      · have hmeta := parseFileData_preserves_meta hp
        simp only [mkFileData] at hmeta
        obtain ⟨h1, h2, h3, h4⟩ := hmeta
        subst h
        refine ⟨h1, h2, h3, h4, fun htail => ?_⟩
        simp [buildRequest, htail, pyOr, pyOrOpt, h1]

/-- A message whose audio and document kinds are both present. -/
def mAudio : Media := { file_id := fidTag3, date := some 1570000000 }

def mDoc : Media := { file_id := fidTag3 }

def msgAudioDoc : Msg := { audio := some mAudio, document := some mDoc }

theorem C10_media_priority_bare_string_witness :
    firstSome (availableMedia msgAudioDoc) =
        (msgAudioDoc.audio <|> msgAudioDoc.document <|> msgAudioDoc.photo <|>
          msgAudioDoc.sticker <|> msgAudioDoc.animation <|> msgAudioDoc.video <|>
          msgAudioDoc.voice <|> msgAudioDoc.video_note) ∧
      (req3.data.file_name = none ∧ req3.data.file_size = none ∧
        req3.data.mime_type = none ∧ req3.data.date = none ∧
        ((osPathSplit "downloads/").2 = "" →
          req3.fileName = synthFileName sampleClient req3.data)) :=
  ⟨C10_media_priority_bare_string.1 msgAudioDoc,
   C10_media_priority_bare_string.2 sampleClient noWorker fidTag3 "downloads/"
     true () req3 (by decide)⟩

/-! ### C2 -/

/-- The descriptor produced for a plain-document tag `t` record `bs` decoded
from the media object `m`. -/
def docData (m : Media) (bs : List Nat) (t : Nat) : FileData :=
  { file_name := m.file_name, file_size := m.file_size,
    mime_type := m.mime_type, date := m.date,
    media_type := some t, dc_id := some (sIntAt bs 4 4),
    document_id := some (sIntAt bs 8 8), access_hash := some (sIntAt bs 16 8) }

/-- A message whose picked media decodes to a 24-byte tag-3 record prepares
the corresponding plain-document descriptor. -/
theorem prepare_tag3 (msg : Msg) (m : Media) (bs : List Nat)
    (hpick : firstSome (availableMedia msg) = some m)
    (hdec : decode m.file_id = some bs)
    (hhead : bs.head? = some 3) (hlen : bs.length = 24) :
    prepare (Sum.inl msg) = Except.ok (docData m bs 3) := by
  simp only [prepare, resolveMedia, hpick, extractMeta, hdec, parseFileData,
    hhead, hlen]
  norm_num
  simp [mkFileData, docData]

/-- With an empty tail component and no descriptor file name, the built
request carries the synthesized file name. -/
theorem buildRequest_fileName_synth {π : Type} (c : Client)
    (dataF : FileData) (path : String) (prog : π)
    (htail : (osPathSplit path).2 = "") (hfn : dataF.file_name = none) :
    (buildRequest c dataF path prog).fileName = synthFileName c dataF := by
  simp [buildRequest, htail, hfn, pyOrOpt, pyOr]

/-- The synthesized name for an audio-category (tag 3) descriptor with a known
nonzero date and a failed MIME guess. -/
theorem synthFileName_audio (c : Client) (dataF : FileData) (d : Nat)
    (hmt : dataF.media_type = some 3) (hdate : dataF.date = some d)
    (hd0 : d ≠ 0) (hguess : c.guessExtension dataF.mime_type = none) :
    synthFileName c dataF =
      "audio_" ++ formatTimestamp d ++ "_" ++ toString c.rndId ++ ".ogg" := by
  simp only [synthFileName, hmt, Option.getD_some, synthExtension, hguess,
    MEDIA_TYPE_ID, pyOrNat, hdate, pyOrOpt]
  norm_num [hd0]
  rfl

/-- C2: with no caller-supplied filename (neither in the caller path's tail
nor on the media object), an audio-category tag (3), a failed MIME guess and a
known nonzero date, the enqueued file name is exactly the "audio" label, an
underscore, the date formatted to second precision, an underscore, the random
suffix, and ".ogg". -/
theorem C2_audio_filename_synthesis {π : Type} (c : Client)
    (w : TransferRequest π → Option String) (blk : Bool) (prog : π)
    (msg : Msg) (m : Media) (path : String) (d : Nat) (bs : List Nat)
    (hpick : firstSome (availableMedia msg) = some m)
    (hfn : m.file_name = none)
    (htail : (osPathSplit path).2 = "")
    (hdate : m.date = some d) (hd0 : d ≠ 0)
    (hguess : c.guessExtension m.mime_type = none)
    (hdec : decode m.file_id = some bs)
    (hhead : bs.head? = some 3) (hlen : bs.length = 24) :
    (downloadMedia c w (Sum.inl msg) path blk prog).2.map (fun r => r.fileName) =
      ["audio_" ++ formatTimestamp d ++ "_" ++ toString c.rndId ++ ".ogg"] := by
  have hparse := prepare_tag3 msg m bs hpick hdec hhead hlen
  have hA : (downloadMedia c w (Sum.inl msg) path blk prog).2 =
      [buildRequest c (docData m bs 3) path prog] := by
    unfold downloadMedia
    rw [hparse]
  rw [hA, List.map_cons, List.map_nil]
  rw [buildRequest_fileName_synth c (docData m bs 3) path prog htail hfn]
  rw [synthFileName_audio c (docData m bs 3) d rfl hdate hd0 hguess]

/-- The 24 bytes `fidTag3` decodes to. -/
def bytesTag3 : List Nat :=
  [3, 0, 0, 0, 0, 0, 0, 0, 0, 0, 0, 0, 0, 0, 0, 0, 0, 0, 0, 0, 0, 0, 0, 0]

def msgAudio : Msg := { audio := some mAudio }

theorem C2_audio_filename_synthesis_witness :
    (downloadMedia sampleClient noWorker (Sum.inl msgAudio) "downloads/" true
        ()).2.map (fun r => r.fileName) =
      ["audio_" ++ formatTimestamp 1570000000 ++ "_" ++
        toString sampleClient.rndId ++ ".ogg"] :=
  C2_audio_filename_synthesis sampleClient noWorker true () msgAudio mAudio
    "downloads/" 1570000000 bytesTag3 rfl rfl (by decide) rfl (by decide) rfl
    (by decide) (by decide) (by decide)

/-! ### C3 -/

/-- C3 counterexample: a client whose MIME guess succeeds with ".png" on
"image/png" still synthesizes the fixed ".jpg" extension for the photo-like
tag 0 — the guess-first priority does not extend to the photo group. -/
theorem C3_photo_extension_counterexample :
    guessingClient.guessExtension (some "image/png") = some ".png" ∧
      synthExtension guessingClient 0 (some "image/png") = ".jpg" ∧
      (".jpg" : String) ≠ ".png" :=
  ⟨rfl, rfl, by decide⟩

/-- C3 amended: when the MIME guess succeeds (with a non-empty extension), the
guess is used for the tag groups {3}, {4,10,13}, {5}, {8}, {9}; the photo-like
tags {0,1,2,14} use the fixed ".jpg" regardless of the guess; and any other
tag gets ".unknown". -/
theorem C3_extension_priority (c : Client) (mt : Nat) (mime : Option String)
    (ext : String) (hg : c.guessExtension mime = some ext) (hne : ext ≠ "") :
    synthExtension c mt mime =
      if mt = 0 ∨ mt = 1 ∨ mt = 2 ∨ mt = 14 then ".jpg"
      else if mt = 3 ∨ mt = 4 ∨ mt = 5 ∨ mt = 8 ∨ mt = 9 ∨ mt = 10 ∨ mt = 13
        then ext
      else ".unknown" := by
  unfold synthExtension
  rw [hg]
  simp only [pyOrOpt, pyOr, if_neg hne]
  split_ifs <;> first | rfl | omega

theorem C3_extension_priority_witness :
    synthExtension guessingClient 3 (some "image/png") = ".png" := by
  have h := C3_extension_priority guessingClient 3 (some "image/png") ".png"
    rfl (by decide)
  simpa using h
